import Mathlib

/-!
Verification of the pyrism scattering facade (`pyrism/scattering/tmat/tmatrix.py`
and `pyrism/scattering/mie/mie.py`) against its natural-language specification.

The numerical kernels (`TMatrixSingle`, `TMatrixPSD`, `mie_scattering`) are
external collaborators: their outputs (the scattering amplitude matrix `S`, the
cross sections and the extinction-factor) appear here as inputs of the embedded
facade functions.  Complex numbers are embedded as pairs of rationals, numpy
arrays of per-geometry samples as lists, and 4x4 real matrices as functions
`Fin 4 → Fin 4 → ℚ`.  Rational division is total with `x / 0 = 0`; the source
performs the same unguarded divisions on floats.
-/

/-- Complex number with rational components, modelling a Python complex value. -/
structure CQ where
  re : ℚ
  im : ℚ
deriving DecidableEq, Repr

/-- Complex multiplication, modelling Python `*` on complex numbers. -/
def CQ.mul (a b : CQ) : CQ :=
  ⟨a.re * b.re - a.im * b.im, a.re * b.im + a.im * b.re⟩

/-- A 2x2 complex scattering amplitude matrix `S`; field `spq` is `S[p,q]`. -/
structure CM2 where
  s00 : CQ
  s01 : CQ
  s10 : CQ
  s11 : CQ
deriving DecidableEq, Repr

/-- A 4x4 real (Stokes-style) matrix, modelling a numpy `(4,4)` float array. -/
abbrev Mat4 := Fin 4 → Fin 4 → ℚ

/-- Row-major constructor for `Mat4` from four rows, as `np.zeros((4,4))`
followed by entry assignments produces in the source. -/
def mk4 (r0 r1 r2 r3 : List ℚ) : Mat4 :=
  fun i j => (([r0, r1, r2, r3].getD i.val []).getD j.val 0)

/-- `TMatrix.Mpq` (tmatrix.py lines 452-467): `return factor * S`. -/
def Mpq (factor S : CQ) : CQ := CQ.mul factor S

/-- One sample of the extinction-matrix derivation (tmatrix.py `__get_ke`,
lines 551-611): the 16 entry assignments into `np.zeros((4,4))`, each built
from `Mpq(factor, S[p,q])`. -/
def keMat (factor : CQ) (S : CM2) : Mat4 :=
  mk4
    [-2 * (Mpq factor S.s00).re, 0, -(Mpq factor S.s01).re, -(Mpq factor S.s00).im]
    [0, -2 * (Mpq factor S.s11).re, -(Mpq factor S.s10).re, -(Mpq factor S.s10).im]
    [-2 * (Mpq factor S.s10).re, -2 * (Mpq factor S.s01).re,
      -((Mpq factor S.s00).re + (Mpq factor S.s11).re),
      (Mpq factor S.s00).im - (Mpq factor S.s11).im]
    [2 * (Mpq factor S.s10).im, -2 * (Mpq factor S.s01).im,
      -((Mpq factor S.s00).im - (Mpq factor S.s11).im),
      -((Mpq factor S.s00).re + (Mpq factor S.s11).re)]

/-- The extinction tensor exactly as displayed in the specification, built
entrywise from `M = factor * S` (spec section 4.3).  Kept separate from
`keMat` (which is translated from the source) so that the two can be compared. -/
def keSpecTable (factor : CQ) (S : CM2) : Mat4 :=
  mk4
    [-2 * (CQ.mul factor S.s00).re, 0, -(CQ.mul factor S.s01).re, -(CQ.mul factor S.s00).im]
    [0, -2 * (CQ.mul factor S.s11).re, -(CQ.mul factor S.s10).re, -(CQ.mul factor S.s10).im]
    [-2 * (CQ.mul factor S.s10).re, -2 * (CQ.mul factor S.s01).re,
      -((CQ.mul factor S.s00).re + (CQ.mul factor S.s11).re),
      (CQ.mul factor S.s00).im - (CQ.mul factor S.s11).im]
    [2 * (CQ.mul factor S.s10).im, -2 * (CQ.mul factor S.s01).im,
      -((CQ.mul factor S.s00).im - (CQ.mul factor S.s11).im),
      -((CQ.mul factor S.s00).re + (CQ.mul factor S.s11).re)]

/-- The synthetic scattering matrix of the specification's unit test:
`S = [[1+2j, 0.5-0.3j], [0.1j, 2-1j]]`. -/
def Stest : CM2 := ⟨⟨1, 2⟩, ⟨1/2, -3/10⟩, ⟨0, 1/10⟩, ⟨2, -1⟩⟩

/-- Cross sections returned by the kernel for one sample: `ksx` and `kex`
for the VV and HH polarization channels. -/
structure XSec where
  ksVV : ℚ
  ksHH : ℚ
  keVV : ℚ
  keHH : ℚ
deriving DecidableEq, Repr

/-- One aligned geometry sample of a `TMatrix` instance: the per-sample
extinction factor `i*2*pi*mean(nmax)/k0` stored at construction
(tmatrix.py line 184), the kernel's scattering amplitude matrix `TM.S`,
and the kernel's cross sections.  `align_all` (lines 149-156) broadcasts
every input array to one common shape, so the per-sample bundling is the
state the facade actually operates on. -/
structure Sample where
  factor : CQ
  S : CM2
  xs : XSec
deriving DecidableEq, Repr

/-- Result type of the derived-matrix accessors: the source returns the bare
matrix when the computed list has exactly one element and the list itself
otherwise (`if len(self.__ke) == 1: return self.__ke[0] else: return self.__ke`). -/
inductive OneOrMany (α : Type) where
  | one : α → OneOrMany α
  | many : List α → OneOrMany α
deriving DecidableEq, Repr

/-- The length-1 collapse performed by every derived-matrix property. -/
def unwrap {α : Type} (l : List α) : OneOrMany α :=
  match l with
  | [x] => OneOrMany.one x
  | _ => OneOrMany.many l

/-- `TMatrix.__get_ke` (lines 551-611): one `keMat` per `S` sample, with the
per-sample factor, in input order. -/
def get_ke (samples : List Sample) : List Mat4 :=
  samples.map (fun s => keMat s.factor s.S)

/-- The `TMatrix.ke` property (lines 232-255): computes `__get_ke` and
collapses a one-element result to the bare matrix. -/
def keProp (samples : List Sample) : OneOrMany Mat4 :=
  unwrap (get_ke samples)

/-- One sample of the albedo derivation (`__get_omega`, lines 728-756):
`np.zeros((4,4))` with `omega[0,0] = ksVV/keVV` and `omega[1,1] = ksHH/keHH`. -/
def omegaMat (x : XSec) : Mat4 :=
  mk4 [x.ksVV / x.keVV, 0, 0, 0] [0, x.ksHH / x.keHH, 0, 0] [0, 0, 0, 0] [0, 0, 0, 0]

/-- `TMatrix.__get_omega` (lines 728-756): when the cross sections have more
than one sample, one `omegaMat` per sample; otherwise (scalar or length-1
cross sections, `slen <= 1`) a single `omegaMat`.  The empty case cannot be
produced by the adapter (it raises in the source) and is mapped to `[]`. -/
def get_omega (samples : List Sample) : List Mat4 :=
  if 1 < samples.length then
    samples.map (fun s => omegaMat s.xs)
  else
    match samples with
    | [s] => [omegaMat s.xs]
    | _ => []

/-- The `TMatrix.omega` property (lines 307-330). -/
def omegaProp (samples : List Sample) : OneOrMany Mat4 :=
  unwrap (get_omega samples)

/-- One sample of the scattering-matrix derivation (`__get_ks`, lines 502-524):
`ks[0,0] = omega[0,0]*ke[0,0]`, `ks[1,1] = omega[1,1]*ke[1,1]`, all other
entries left at the `np.zeros((4,4))` value. -/
def ksMat (om ke : Mat4) : Mat4 :=
  mk4 [om 0 0 * ke 0 0, 0, 0, 0] [0, om 1 1 * ke 1 1, 0, 0] [0, 0, 0, 0] [0, 0, 0, 0]

/-- One sample of the absorption derivation (`__get_ka`, lines 526-549):
`ka[p,p] = (ks[p,p] - omega[p,p]*ks[p,p]) / omega[p,p]` for the two diagonal
polarization channels, no guard on `omega[p,p] = 0` (the source divides
floats as written; here rational division makes `x / 0 = 0`). -/
def kaMat (ks om : Mat4) : Mat4 :=
  mk4 [(ks 0 0 - om 0 0 * ks 0 0) / om 0 0, 0, 0, 0]
      [0, (ks 1 1 - om 1 1 * ks 1 1) / om 1 1, 0, 0]
      [0, 0, 0, 0] [0, 0, 0, 0]

/-- Shared sample-walking shape of `__get_ks` and `__get_ka`: both branch on
`isinstance(omega, list)` (the unwrapped first argument) and pair the samples
positionally.  A list paired with a bare matrix raises in the source
(list/`numpy` indexing error) and is mapped to `[]`. -/
def combSamples (f : Mat4 → Mat4 → Mat4) (a b : OneOrMany Mat4) : List Mat4 :=
  match a, b with
  | OneOrMany.many xs, OneOrMany.many ys => List.zipWith f xs ys
  | OneOrMany.one x, OneOrMany.one y => [f x y]
  | _, _ => []

/-- `TMatrix.__get_ks` (lines 502-524): takes the already-unwrapped `self.ke`
and `self.omega`, branches on whether `omega` is a list. -/
def get_ks (ke omega : OneOrMany Mat4) : List Mat4 :=
  combSamples (fun om k => ksMat om k) omega ke

/-- The `TMatrix.ks` property (lines 257-280). -/
def ksProp (samples : List Sample) : OneOrMany Mat4 :=
  unwrap (get_ks (keProp samples) (omegaProp samples))

/-- `TMatrix.__get_ka` (lines 526-549): takes the already-unwrapped `self.ks`
and `self.omega`, branches on whether `omega` is a list. -/
def get_ka (ks omega : OneOrMany Mat4) : List Mat4 :=
  combSamples (fun om k => kaMat k om) omega ks

/-- The `TMatrix.ka` property (lines 282-305). -/
def kaProp (samples : List Sample) : OneOrMany Mat4 :=
  unwrap (get_ka (ksProp samples) (omegaProp samples))

/-- Elementwise `1 - m`: numpy broadcasts the scalar `1` in `1 - item`
(`__get_kt`, line 496) over every entry of the 4x4 array. -/
def onesSub (m : Mat4) : Mat4 :=
  fun i j => 1 - m i j

/-- `TMatrix.__get_kt` (lines 489-500): takes the already-unwrapped `self.ke`
and appends `1 - item` for each sample (or the single bare matrix). -/
def get_kt (ke : OneOrMany Mat4) : List Mat4 :=
  match ke with
  | OneOrMany.many l => l.map onesSub
  | OneOrMany.one m => [onesSub m]

/-- The `TMatrix.kt` property (lines 332-355). -/
def ktProp (samples : List Sample) : OneOrMany Mat4 :=
  unwrap (get_kt (keProp samples))

/-- Per-sample extinction matrix. -/
def keOf (s : Sample) : Mat4 := keMat s.factor s.S

/-- Per-sample albedo matrix. -/
def omOf (s : Sample) : Mat4 := omegaMat s.xs

/-- Per-sample scattering matrix as the pipeline derives it. -/
def ksOf (s : Sample) : Mat4 := ksMat (omOf s) (keOf s)

/-- Per-sample absorption matrix as the pipeline derives it. -/
def kaOf (s : Sample) : Mat4 := kaMat (ksOf s) (omOf s)

/-- Per-sample transmission matrix as the pipeline derives it. -/
def ktOf (s : Sample) : Mat4 := onesSub (keOf s)

/-- A concrete one-sample state: the specification's synthetic `S` with
factor `1+0j` and cross sections giving `omega` diagonal `1/2, 1/2`. -/
def sample0 : Sample := ⟨⟨1, 0⟩, Stest, ⟨2, 3, 4, 6⟩⟩

/-- A second concrete sample with different kernel outputs, for multi-sample
checks. -/
def sample1 : Sample := ⟨⟨0, 2⟩, ⟨⟨3, 1⟩, ⟨0, 0⟩, ⟨1, -1⟩, ⟨1, 4⟩⟩, ⟨1, 2, 5, 8⟩⟩

/-- Mode tag of the facade (tmatrix.py lines 111-134): `self.__NAME` is
`SINGLE` when no PSD callable is supplied and `PSD` otherwise. -/
inductive TMMode where
  | SINGLE : TMMode
  | PSD : TMMode
deriving DecidableEq, Repr

/-- Mode selection at construction: PSD mode iff a `psd` callable is given
(`if psd is None ... else ...`, lines 112 and 123). -/
def modeOf (psd : Option (ℚ → ℚ)) : TMMode :=
  match psd with
  | none => TMMode.SINGLE
  | some _ => TMMode.PSD

/-- The `TMatrix.ksi` property (lines 381-394): the single-orientation
intensity of the wrapped kernel in SINGLE mode, `None` in PSD mode. -/
def ksi (mode : TMMode) (tm_ksi : ℚ × ℚ) : Option (ℚ × ℚ) :=
  match mode with
  | TMMode.SINGLE => some tm_ksi
  | TMMode.PSD => none

/-- The `TMatrix.dblquad` property (lines 408-420): the half-space phase
matrix integral of the wrapped kernel in SINGLE mode, `None` in PSD mode. -/
def dblquad (mode : TMMode) (tm_dblquad : List ℚ) : Option (List ℚ) :=
  match mode with
  | TMMode.SINGLE => some tm_dblquad
  | TMMode.PSD => none

/-- The memoization state of one `TMatrix` instance: the five private
attributes `self.__ke`, `self.__ks`, `self.__ka`, `self.__kt`,
`self.__omega`, each absent (`AttributeError` on access) or holding the
computed list. -/
structure Cache where
  keC : Option (List Mat4)
  ksC : Option (List Mat4)
  kaC : Option (List Mat4)
  ktC : Option (List Mat4)
  omegaC : Option (List Mat4)
deriving DecidableEq, Repr

/-- The empty cache of a freshly constructed instance. -/
def cacheEmpty : Cache := ⟨none, none, none, none, none⟩

/-- The `ke` property with its cache (lines 232-255): on a hit return the
stored list unwrapped, on a miss (`AttributeError`) store `__get_ke()` and
return it unwrapped. -/
def keAcc (samples : List Sample) (c : Cache) : OneOrMany Mat4 × Cache :=
  match c.keC with
  | some l => (unwrap l, c)
  | none => (unwrap (get_ke samples), { c with keC := some (get_ke samples) })

/-- The `omega` property with its cache (lines 307-330). -/
def omegaAcc (samples : List Sample) (c : Cache) : OneOrMany Mat4 × Cache :=
  match c.omegaC with
  | some l => (unwrap l, c)
  | none => (unwrap (get_omega samples), { c with omegaC := some (get_omega samples) })

/-- The `ks` property with its cache (lines 257-280): a miss runs
`__get_ks`, which first reads `self.ke` and then `self.omega` (filling
their caches), then stores the derived list. -/
def ksAcc (samples : List Sample) (c : Cache) : OneOrMany Mat4 × Cache :=
  match c.ksC with
  | some l => (unwrap l, c)
  | none =>
    let p1 := keAcc samples c
    let p2 := omegaAcc samples p1.2
    (unwrap (get_ks p1.1 p2.1), { p2.2 with ksC := some (get_ks p1.1 p2.1) })

/-- The `ka` property with its cache (lines 282-305): a miss runs
`__get_ka`, which reads `self.ks` and then `self.omega`. -/
def kaAcc (samples : List Sample) (c : Cache) : OneOrMany Mat4 × Cache :=
  match c.kaC with
  | some l => (unwrap l, c)
  | none =>
    let p1 := ksAcc samples c
    let p2 := omegaAcc samples p1.2
    (unwrap (get_ka p1.1 p2.1), { p2.2 with kaC := some (get_ka p1.1 p2.1) })

/-- The `kt` property with its cache (lines 332-355): a miss runs
`__get_kt`, which reads `self.ke`. -/
def ktAcc (samples : List Sample) (c : Cache) : OneOrMany Mat4 × Cache :=
  match c.ktC with
  | some l => (unwrap l, c)
  | none =>
    let p1 := keAcc samples c
    (unwrap (get_kt p1.1), { p1.2 with ktC := some (get_kt p1.1) })

/-- The five derived-matrix accessors of the facade. -/
inductive DAcc where
  | ke : DAcc
  | ks : DAcc
  | ka : DAcc
  | kt : DAcc
  | omega : DAcc
deriving DecidableEq, Repr

/-- Dispatch one derived-matrix property call on the instance state. -/
def runAcc (a : DAcc) (samples : List Sample) (c : Cache) : OneOrMany Mat4 × Cache :=
  match a with
  | DAcc.ke => keAcc samples c
  | DAcc.ks => ksAcc samples c
  | DAcc.ka => kaAcc samples c
  | DAcc.kt => ktAcc samples c
  | DAcc.omega => omegaAcc samples c

/-- `c2` keeps every derived value already stored in `c1`: no accessor
invalidates or overwrites a filled cache slot. -/
def cachePreserves (c1 c2 : Cache) : Prop :=
  (∀ l, c1.keC = some l → c2.keC = some l) ∧
  (∀ l, c1.ksC = some l → c2.ksC = some l) ∧
  (∀ l, c1.kaC = some l → c2.kaC = some l) ∧
  (∀ l, c1.ktC = some l → c2.ktC = some l) ∧
  (∀ l, c1.omegaC = some l → c2.omegaC = some l)

/-- The exact rational value of the double-precision float `np.pi` used by
`mie.py` in the size-parameter computation. -/
def npPi : ℚ := 884279719003555 / 281474976710656

/-- The six bulk radiometric outputs of the external `mie_scattering` kernel
(mie.py line 59). -/
structure MieOut where
  ks : ℚ
  ka : ℚ
  kt : ℚ
  ke : ℚ
  omega : ℚ
  bsc : ℚ
deriving DecidableEq, Repr

/-- The state of a constructed `Mie` object: the size-parameter array
`self.condition`, whether the validity warning was emitted, and the six
kernel attributes. -/
structure MieResult where
  condition : List ℚ
  warned : Bool
  out : MieOut
deriving DecidableEq, Repr

/-- `Mie.__init__` (mie.py lines 45-59): rescale the radius array from cm to
m by `/ 100`, derive the wavelength in meters from the frequency in GHz,
compute the size parameter `2*pi*radius/lm`, warn (non-fatally) when
`np.any(condition < 0.5)`, and in every case delegate to the external
`mie_scattering` kernel for the six attributes. -/
def mieInit (kernel : ℚ → List ℚ → CQ → CQ → MieOut)
    (frequency : ℚ) (radius : List ℚ) (eps_p eps_b : CQ) : MieResult :=
  let r := radius.map (fun a => a / 100)
  let lm : ℚ := 299792458 / (frequency * 1000000000)
  let cond := r.map (fun a => 2 * npPi * a / lm)
  { condition := cond
    warned := cond.any (fun x => decide (x < 1/2))
    out := kernel frequency r eps_p eps_b }

/-- One geometry tuple passed to the PSD angular-table accessors, abstracted
to its numeric content. -/
abbrev Geom := ℚ

/-- The failure conditions of the wrapped kernels that the facade handles. -/
inductive TmErr where
  | notBuilt : TmErr
deriving DecidableEq, Repr

/-- Modelled from the spec: the angular-table state of a `TMatrixPSD`
instance (`tm_psd.py` is not under `src/`).  The table maps a geometry to
the (VV, HH) cross sections; `built` records whether `init_SZ` has run
(spec sections 4.2 and 4.3: before the build, angular-integrated accessors
fail with a not-yet-initialized condition). -/
structure PsdState where
  built : Bool
  kexVV : Geom → ℚ
  kexHH : Geom → ℚ

/-- Modelled from the spec: `TMatrixPSD.kex(geometry)` — per-geometry
extinction cross sections, failing with the not-yet-initialized condition
until `init_SZ` has built the table. -/
def psdKex (st : PsdState) (g : Geom) : Except TmErr (ℚ × ℚ) :=
  if st.built then Except.ok (st.kexVV g, st.kexHH g) else Except.error TmErr.notBuilt

/-- Modelled from the spec: `TMatrixPSD.init_SZ` builds the angular table. -/
def psdInitSZ (st : PsdState) : PsdState :=
  { st with built := true }

/-- The `TMatrix.kex` property in PSD mode (tmatrix.py lines 357-367):
`return self.TM.kex` — it hands back the wrapped accessor itself, performing
no call, no catch of the not-yet-initialized condition, and no `init_SZ`;
the instance state is untouched. -/
def kexPropPSD (st : PsdState) : (Geom → Except TmErr (ℚ × ℚ)) × PsdState :=
  (psdKex st, st)

/-- The inner query loop of `TMatrix.__get_kex` (lines 696-708 and 714-726):
collect the per-geometry (VV, HH) pairs, propagating the first failure. -/
def kexLoop (st : PsdState) (geoms : List Geom) : Except TmErr (List ℚ × List ℚ) :=
  match geoms with
  | [] => Except.ok ([], [])
  | g :: rest =>
    match psdKex st g, kexLoop st rest with
    | Except.ok (vv, hh), Except.ok (vvs, hhs) => Except.ok (vv :: vvs, hh :: hhs)
    | Except.error e, _ => Except.error e
    | _, Except.error e => Except.error e

/-- `TMatrix.__get_kex` (lines 690-726, PSD branch with a geometry list):
try the per-geometry queries; on the not-yet-initialized condition call
`self.TM.init_SZ()` once and rerun the queries — the build is attempted at
most once, with no second catch.  This private method is never called by
the public `kex` property. -/
def getKexPrivate (geoms : List Geom) (st : PsdState) :
    Except TmErr (List ℚ × List ℚ) × PsdState :=
  match kexLoop st geoms with
  | Except.ok v => (Except.ok v, st)
  | Except.error _ =>
    let st2 := psdInitSZ st
    (kexLoop st2 geoms, st2)

/-- A concrete unbuilt PSD-mode state with a nontrivial angular table. -/
def psd0 : PsdState := ⟨false, fun g => g, fun _ => 7⟩

/-- A cache state with the extinction list already memoized. -/
def cache0 : Cache := ⟨some [keOf sample0], none, none, none, none⟩

lemma finval0 : ((0 : Fin 4) : ℕ) = 0 := rfl

lemma finval1 : ((1 : Fin 4) : ℕ) = 1 := rfl

lemma finval2 : ((2 : Fin 4) : ℕ) = 2 := rfl

lemma finval3 : ((3 : Fin 4) : ℕ) = 3 := rfl

lemma unwrap_eq_one {α : Type} (l : List α) (x : α) (h : l = [x]) :
    unwrap l = OneOrMany.one x := by
  subst h; rfl

lemma unwrap_eq_many {α : Type} (l : List α) (h : 2 ≤ l.length) :
    unwrap l = OneOrMany.many l := by
  rcases l with _ | ⟨x, _ | ⟨y, t⟩⟩
  · simp at h
  · simp at h
  · rfl

lemma get_kt_unwrap (l : List Mat4) : get_kt (unwrap l) = l.map onesSub := by
  rcases l with _ | ⟨x, _ | ⟨y, t⟩⟩ <;> rfl

lemma combSamples_unwrap (f : Mat4 → Mat4 → Mat4) (a b : List Mat4)
    (h : a.length = b.length) :
    combSamples f (unwrap a) (unwrap b) = List.zipWith f a b := by
  rcases a with _ | ⟨x1, _ | ⟨x2, xs⟩⟩ <;> rcases b with _ | ⟨y1, _ | ⟨y2, ys⟩⟩ <;>
    first
      | rfl
      | simp at h

lemma zipWith_map_same {α β : Type} (f : β → β → β) (g h : α → β) (l : List α) :
    List.zipWith f (l.map g) (l.map h) = l.map (fun x => f (g x) (h x)) := by
  induction l with
  | nil => rfl
  | cons a t ih => simp [ih]

lemma get_ke_eq_map (samples : List Sample) : get_ke samples = samples.map keOf := rfl

lemma get_omega_eq_map (samples : List Sample) :
    get_omega samples = samples.map omOf := by
  rcases samples with _ | ⟨s, _ | ⟨t, ts⟩⟩
  · rfl
  · rfl
  · have hlen : 1 < (s :: t :: ts).length := by
      simp only [List.length_cons]; omega
    unfold get_omega
    rw [if_pos hlen]
    rfl

lemma get_ks_pipeline (samples : List Sample) :
    get_ks (keProp samples) (omegaProp samples) = samples.map ksOf := by
  show combSamples (fun om k => ksMat om k)
      (unwrap (get_omega samples)) (unwrap (get_ke samples)) = _
  rw [combSamples_unwrap _ _ _
    (by rw [get_omega_eq_map, get_ke_eq_map]; simp)]
  rw [get_omega_eq_map, get_ke_eq_map, zipWith_map_same]
  rfl

lemma get_ka_pipeline (samples : List Sample) :
    get_ka (ksProp samples) (omegaProp samples) = samples.map kaOf := by
  show combSamples (fun om k => kaMat k om)
      (unwrap (get_omega samples))
      (unwrap (get_ks (keProp samples) (omegaProp samples))) = _
  rw [combSamples_unwrap _ _ _
    (by rw [get_omega_eq_map, get_ks_pipeline]; simp)]
  rw [get_omega_eq_map, get_ks_pipeline, zipWith_map_same]
  rfl

lemma get_kt_pipeline (samples : List Sample) :
    get_kt (keProp samples) = samples.map ktOf := by
  show get_kt (unwrap (get_ke samples)) = _
  rw [get_kt_unwrap, get_ke_eq_map, List.map_map]
  rfl

lemma ksMat_offdiag (om ke : Mat4) (i j : Fin 4)
    (h1 : ¬(i = 0 ∧ j = 0)) (h2 : ¬(i = 1 ∧ j = 1)) : ksMat om ke i j = 0 := by
  fin_cases i <;> fin_cases j <;>
    first
      | rfl
      | exact absurd (by decide) h1
      | exact absurd (by decide) h2

lemma kaMat_offdiag (ks om : Mat4) (i j : Fin 4)
    (h1 : ¬(i = 0 ∧ j = 0)) (h2 : ¬(i = 1 ∧ j = 1)) : kaMat ks om i j = 0 := by
  fin_cases i <;> fin_cases j <;>
    first
      | rfl
      | exact absurd (by decide) h1
      | exact absurd (by decide) h2

/-- Claim C1: for every scattering amplitude matrix `S` and the complex factor
stored at construction, the derived extinction matrix `ke` is built entrywise
from `M = factor * S` with exactly the specification's sign/index pattern
(`keSpecTable`); one `keMat` is produced per sample in order; and for the
synthetic `S = [[1+2j, 0.5-0.3j], [0.1j, 2-1j]]` with factor `1+0j` all 16
entries equal the hand-computed values. -/
theorem spec_C1_ke_pattern :
    (∀ (factor : CQ) (S : CM2), keMat factor S = keSpecTable factor S) ∧
    (∀ samples : List Sample, get_ke samples = samples.map keOf) ∧
    keMat ⟨1, 0⟩ Stest =
      mk4 [-2, 0, -1/2, -2] [0, -4, 0, -1/10] [0, -1, -3, 3] [1/5, 3/5, -3, -3] := by
  refine ⟨fun factor S => rfl, fun samples => rfl, ?_⟩
  funext i j
  fin_cases i <;> fin_cases j <;>
    norm_num [keMat, mk4, Mpq, CQ.mul, Stest, finval0, finval1, finval2, finval3]

/-- Claim C2: the transmission pipeline maps `1 - ke` over the extinction
samples, so `kt + ke = 1` holds entrywise for every sample. -/
theorem spec_C2_kt_roundtrip (samples : List Sample) :
    get_kt (keProp samples) = (get_ke samples).map onesSub ∧
    ∀ (s : Sample) (i j : Fin 4), ktOf s i j + keOf s i j = 1 := by
  refine ⟨get_kt_unwrap (get_ke samples), fun s i j => ?_⟩
  show (1 - keOf s i j) + keOf s i j = 1
  ring

/-- Claim C3: the scattering pipeline yields one matrix per sample with
`ks[0,0] = omega[0,0]*ke[0,0]`, `ks[1,1] = omega[1,1]*ke[1,1]` and every
other entry zero, where `omega`'s diagonal comes from the kernel cross
sections (`ksx/kex`); in particular `ks[0,0]/ke[0,0] = omega[0,0]` whenever
`ke[0,0]` is nonzero, and `ks` and `omega` are plain compositions of total
functions (no mutual recursion: `omega` depends only on the cross sections). -/
theorem spec_C3_ks_omega (samples : List Sample) :
    get_ks (keProp samples) (omegaProp samples) = samples.map ksOf ∧
    get_omega samples = samples.map omOf ∧
    ∀ s : Sample,
      ksOf s 0 0 = omOf s 0 0 * keOf s 0 0 ∧
      ksOf s 1 1 = omOf s 1 1 * keOf s 1 1 ∧
      (∀ i j : Fin 4, ¬(i = 0 ∧ j = 0) → ¬(i = 1 ∧ j = 1) → ksOf s i j = 0) ∧
      omOf s 0 0 = s.xs.ksVV / s.xs.keVV ∧
      omOf s 1 1 = s.xs.ksHH / s.xs.keHH ∧
      (keOf s 0 0 ≠ 0 → ksOf s 0 0 / keOf s 0 0 = omOf s 0 0) := by
  refine ⟨get_ks_pipeline samples, get_omega_eq_map samples, fun s => ?_⟩
  refine ⟨rfl, rfl, fun i j h1 h2 => ksMat_offdiag _ _ i j h1 h2, rfl, rfl, fun h => ?_⟩
  show omOf s 0 0 * keOf s 0 0 / keOf s 0 0 = omOf s 0 0
  exact mul_div_cancel_right₀ (omOf s 0 0) h

/-- Witness for C3 at the concrete one-sample state. -/
theorem spec_C3_ks_omega_witness :
    ksOf sample0 0 0 = omOf sample0 0 0 * keOf sample0 0 0 ∧
    ksOf sample0 0 1 = 0 ∧
    keOf sample0 0 0 ≠ 0 ∧
    ksOf sample0 0 0 / keOf sample0 0 0 = omOf sample0 0 0 := by
  have h := (spec_C3_ks_omega [sample0]).2.2 sample0
  have hne : keOf sample0 0 0 ≠ 0 := by
    show -2 * ((1 : ℚ) * 1 - 0 * 2) ≠ 0
    simp
  exact ⟨h.1, h.2.2.1 0 1 (by decide) (by decide), hne, h.2.2.2.2.2 hne⟩

/-- Claim C4: the absorption pipeline yields one matrix per sample with
`ka[p,p] = (ks[p,p] - omega[p,p]*ks[p,p]) / omega[p,p]` on the two diagonal
polarization channels and zero elsewhere; the equations hold with no
hypothesis on `omega[p,p]`, i.e. the division is performed as written with
no guard at `omega[p,p] = 0`. -/
theorem spec_C4_ka_formula (samples : List Sample) :
    get_ka (ksProp samples) (omegaProp samples) = samples.map kaOf ∧
    ∀ s : Sample,
      kaOf s 0 0 = (ksOf s 0 0 - omOf s 0 0 * ksOf s 0 0) / omOf s 0 0 ∧
      kaOf s 1 1 = (ksOf s 1 1 - omOf s 1 1 * ksOf s 1 1) / omOf s 1 1 ∧
      (∀ i j : Fin 4, ¬(i = 0 ∧ j = 0) → ¬(i = 1 ∧ j = 1) → kaOf s i j = 0) :=
  ⟨get_ka_pipeline samples, fun s =>
    ⟨rfl, rfl, fun i j h1 h2 => kaMat_offdiag _ _ i j h1 h2⟩⟩

/-- Witness for C4 at the concrete one-sample state. -/
theorem spec_C4_ka_formula_witness :
    get_ka (ksProp [sample0]) (omegaProp [sample0]) = [kaOf sample0] ∧
    kaOf sample0 2 3 = 0 := by
  have h := spec_C4_ka_formula [sample0]
  exact ⟨h.1, (h.2 sample0).2.2 2 3 (by decide) (by decide)⟩

/-- Claim C5: every derived-matrix accessor (`ke`, `omega`, `ks`, `ka`, `kt`)
returns the bare 4x4 matrix when the computed list has exactly one sample and
the ordered list itself when it has two or more; the underlying lists are
per-sample maps, preserving the input sample order. -/
theorem spec_C5_unwrap (samples : List Sample) :
    (∀ m, get_ke samples = [m] → keProp samples = OneOrMany.one m) ∧
    (2 ≤ (get_ke samples).length →
      keProp samples = OneOrMany.many (get_ke samples)) ∧
    (∀ m, get_omega samples = [m] → omegaProp samples = OneOrMany.one m) ∧
    (2 ≤ (get_omega samples).length →
      omegaProp samples = OneOrMany.many (get_omega samples)) ∧
    (∀ m, get_ks (keProp samples) (omegaProp samples) = [m] →
      ksProp samples = OneOrMany.one m) ∧
    (2 ≤ (get_ks (keProp samples) (omegaProp samples)).length →
      ksProp samples = OneOrMany.many (get_ks (keProp samples) (omegaProp samples))) ∧
    (∀ m, get_ka (ksProp samples) (omegaProp samples) = [m] →
      kaProp samples = OneOrMany.one m) ∧
    (2 ≤ (get_ka (ksProp samples) (omegaProp samples)).length →
      kaProp samples = OneOrMany.many (get_ka (ksProp samples) (omegaProp samples))) ∧
    (∀ m, get_kt (keProp samples) = [m] → ktProp samples = OneOrMany.one m) ∧
    (2 ≤ (get_kt (keProp samples)).length →
      ktProp samples = OneOrMany.many (get_kt (keProp samples))) ∧
    get_ke samples = samples.map keOf ∧
    get_omega samples = samples.map omOf ∧
    get_ks (keProp samples) (omegaProp samples) = samples.map ksOf ∧
    get_ka (ksProp samples) (omegaProp samples) = samples.map kaOf ∧
    get_kt (keProp samples) = samples.map ktOf :=
  ⟨fun m h => unwrap_eq_one _ m h,
   fun h => unwrap_eq_many _ h,
   fun m h => unwrap_eq_one _ m h,
   fun h => unwrap_eq_many _ h,
   fun m h => unwrap_eq_one _ m h,
   fun h => unwrap_eq_many _ h,
   fun m h => unwrap_eq_one _ m h,
   fun h => unwrap_eq_many _ h,
   fun m h => unwrap_eq_one _ m h,
   fun h => unwrap_eq_many _ h,
   get_ke_eq_map samples,
   get_omega_eq_map samples,
   get_ks_pipeline samples,
   get_ka_pipeline samples,
   get_kt_pipeline samples⟩

/-- Witness for C5: the one-sample state collapses to bare matrices for all
five accessors, the two-sample state keeps ordered lists. -/
theorem spec_C5_unwrap_witness :
    keProp [sample0] = OneOrMany.one (keOf sample0) ∧
    omegaProp [sample0] = OneOrMany.one (omOf sample0) ∧
    ksProp [sample0] = OneOrMany.one (ksOf sample0) ∧
    kaProp [sample0] = OneOrMany.one (kaOf sample0) ∧
    ktProp [sample0] = OneOrMany.one (ktOf sample0) ∧
    keProp [sample0, sample1] = OneOrMany.many [keOf sample0, keOf sample1] ∧
    omegaProp [sample0, sample1] = OneOrMany.many [omOf sample0, omOf sample1] ∧
    ksProp [sample0, sample1] = OneOrMany.many [ksOf sample0, ksOf sample1] ∧
    kaProp [sample0, sample1] = OneOrMany.many [kaOf sample0, kaOf sample1] ∧
    ktProp [sample0, sample1] = OneOrMany.many [ktOf sample0, ktOf sample1] := by
  obtain ⟨k1, _, o1, _, s1, _, a1, _, t1, _, _⟩ := spec_C5_unwrap [sample0]
  obtain ⟨_, k2, _, o2, _, s2, _, a2, _, t2, _⟩ := spec_C5_unwrap [sample0, sample1]
  exact ⟨k1 _ rfl, o1 _ rfl, s1 _ rfl, a1 _ rfl, t1 _ rfl,
         k2 (by decide), o2 (by decide), s2 (by decide), a2 (by decide), t2 (by decide)⟩

/-- Claim C6 (refuted as stated; evidence of the divergence): on a PSD-mode
instance whose angular table is not built, the public `kex` property hands
back the wrapped accessor without triggering `init_SZ` — the table stays
unbuilt and the query it exposes still fails with the not-yet-initialized
condition — while the never-called private `__get_kex` path does catch the
condition once, builds the table, retries, and returns exactly what an
explicit `init_SZ()`-first call returns. -/
theorem spec_C6_kex_auto_init_divergence :
    psd0.built = false ∧
    (kexPropPSD psd0).2.built = false ∧
    (kexPropPSD psd0).1 3 = Except.error TmErr.notBuilt ∧
    (getKexPrivate [3, 5] psd0).1 = Except.ok ([3, 5], [7, 7]) ∧
    (getKexPrivate [3, 5] psd0).2.built = true ∧
    (getKexPrivate [3, 5] (psdInitSZ psd0)).1 = (getKexPrivate [3, 5] psd0).1 :=
  ⟨rfl, rfl, rfl, rfl, rfl, rfl⟩

/-- Claim C7: the Mie construction computes the size parameter
`x = 2*pi*(radius/100)/wavelength` with the wavelength in meters derived from
the frequency in GHz, warns exactly when some `x < 0.5`, and in every case
stores the six attributes delegated to the Mie kernel. -/
theorem spec_C7_mie_validity (kernel : ℚ → List ℚ → CQ → CQ → MieOut)
    (frequency : ℚ) (radius : List ℚ) (eps_p eps_b : CQ) :
    (mieInit kernel frequency radius eps_p eps_b).condition
        = radius.map (fun a =>
            2 * npPi * (a / 100) / (299792458 / (frequency * 1000000000))) ∧
    ((mieInit kernel frequency radius eps_p eps_b).warned = true ↔
      ∃ x ∈ (mieInit kernel frequency radius eps_p eps_b).condition, x < 1/2) ∧
    (mieInit kernel frequency radius eps_p eps_b).out
        = kernel frequency (radius.map (fun a => a / 100)) eps_p eps_b := by
  refine ⟨?_, ?_, rfl⟩
  · show (radius.map (fun a => a / 100)).map
        (fun a => 2 * npPi * a / (299792458 / (frequency * 1000000000))) = _
    rw [List.map_map]
    rfl
  · show ((mieInit kernel frequency radius eps_p eps_b).condition.any
        (fun x => decide (x < 1/2)) = true) ↔ _
    rw [List.any_eq_true]
    simp only [decide_eq_true_eq]

/-- Claim C8: in PSD mode the `ksi` and `dblquad` properties return nothing,
in single mode they return the wrapped single-orientation values. -/
theorem spec_C8_ksi_dblquad (f : ℚ → ℚ) (v : ℚ × ℚ) (d : List ℚ) :
    ksi (modeOf (some f)) v = none ∧
    dblquad (modeOf (some f)) d = none ∧
    ksi (modeOf none) v = some v ∧
    dblquad (modeOf none) d = some d :=
  ⟨rfl, rfl, rfl, rfl⟩

/-- Claim C9: each derived-matrix accessor is memoizing — the state after a
call answers a repeated call with the identical value and an unchanged
state — and no accessor call invalidates or overwrites an already-filled
cache slot. -/
theorem spec_C9_cache_once (a : DAcc) (samples : List Sample) (c : Cache) :
    runAcc a samples (runAcc a samples c).2 = runAcc a samples c ∧
    cachePreserves c (runAcc a samples c).2 := by
  cases a with
  | ke =>
    cases h : c.keC <;> simp [runAcc, keAcc, h, cachePreserves]
  | ks =>
    cases h1 : c.ksC <;> cases h2 : c.keC <;> cases h3 : c.omegaC <;>
      simp [runAcc, ksAcc, keAcc, omegaAcc, h1, h2, h3, cachePreserves]
  | ka =>
    cases h1 : c.kaC <;> cases h2 : c.ksC <;> cases h3 : c.keC <;> cases h4 : c.omegaC <;>
      simp [runAcc, kaAcc, ksAcc, keAcc, omegaAcc, h1, h2, h3, h4, cachePreserves]
  | kt =>
    cases h1 : c.ktC <;> cases h2 : c.keC <;>
      simp [runAcc, ktAcc, keAcc, h1, h2, cachePreserves]
  | omega =>
    cases h : c.omegaC <;> simp [runAcc, omegaAcc, h, cachePreserves]

/-- Witness for C9: the `ks` accessor on a concrete state with a memoized
extinction list is idempotent and keeps the stored list. -/
theorem spec_C9_cache_once_witness :
    runAcc DAcc.ks [sample0] (runAcc DAcc.ks [sample0] cache0).2
        = runAcc DAcc.ks [sample0] cache0 ∧
    (runAcc DAcc.ks [sample0] cache0).2.keC = some [keOf sample0] := by
  have h := spec_C9_cache_once DAcc.ks [sample0] cache0
  exact ⟨h.1, h.2.1 [keOf sample0] rfl⟩

/-- Claim C10 (implicit): whenever a polarization channel's albedo is
nonzero, the derivation formulas force the energy-balance identity
`ka[p,p] + ks[p,p] = ke[p,p]`, equivalently
`ka[p,p] = ke[p,p]*(1 - omega[p,p])`, per sample. -/
theorem spec_C10_energy_balance (samples : List Sample) :
    get_ka (ksProp samples) (omegaProp samples) = samples.map kaOf ∧
    ∀ s : Sample,
      (omOf s 0 0 ≠ 0 →
        kaOf s 0 0 + ksOf s 0 0 = keOf s 0 0 ∧
        kaOf s 0 0 = keOf s 0 0 * (1 - omOf s 0 0)) ∧
      (omOf s 1 1 ≠ 0 →
        kaOf s 1 1 + ksOf s 1 1 = keOf s 1 1 ∧
        kaOf s 1 1 = keOf s 1 1 * (1 - omOf s 1 1)) := by
  refine ⟨get_ka_pipeline samples, fun s => ⟨fun hne => ?_, fun hne => ?_⟩⟩
  · have hka : kaOf s 0 0 =
        (omOf s 0 0 * keOf s 0 0 - omOf s 0 0 * (omOf s 0 0 * keOf s 0 0)) / omOf s 0 0 := rfl
    have hks : ksOf s 0 0 = omOf s 0 0 * keOf s 0 0 := rfl
    constructor
    · rw [hka, hks]
      field_simp
      ring
    · rw [hka]
      field_simp
      ring
  · have hka : kaOf s 1 1 =
        (omOf s 1 1 * keOf s 1 1 - omOf s 1 1 * (omOf s 1 1 * keOf s 1 1)) / omOf s 1 1 := rfl
    have hks : ksOf s 1 1 = omOf s 1 1 * keOf s 1 1 := rfl
    constructor
    · rw [hka, hks]
      field_simp
      ring
    · rw [hka]
      field_simp
      ring

/-- Witness for C10 at the concrete one-sample state, where the VV albedo is
`2/4` and the VV extinction is `-2`. -/
theorem spec_C10_energy_balance_witness :
    omOf sample0 0 0 ≠ 0 ∧
    kaOf sample0 0 0 + ksOf sample0 0 0 = keOf sample0 0 0 := by
  have hne : omOf sample0 0 0 ≠ 0 := by
    show (2 : ℚ) / 4 ≠ 0
    simp
  exact ⟨hne, (((spec_C10_energy_balance [sample0]).2 sample0).1 hne).1⟩
